import Mathlib

/-! Shallow embedding of the translate-hook repository's translation core:
template compilation and rendering (`compileTemplateFunction` / `taggedTemplate`
of translate-util.ts, duplicated verbatim in `I18nTranslateImplement`), key
lookup with language fallback (`translateFn` / `resolveTranslation` of
translate-base.ts and `#getTranslationText` / `#tryGetTranslate` of
translate-implement.ts), the per-language loader with request deduplication,
the shallow bundle-equality check, the reactive-handle caches, and the
singleton registries.  JavaScript runtime semantics that matter here (string
truthiness, array indexing by a string subscript, `??` defaulting) are made
explicit. -/

/-- A JavaScript value that can appear in the `values` argument list of the
translation API (`get(key, ...values)`). -/
inductive JsValue where
  | str (s : String)
  | num (n : Int)
  | bool (b : Bool)
  | null
  | undefined
deriving DecidableEq

/-- JavaScript `String(value)` on a `JsValue`. -/
def jsToString : JsValue → String
  | .str s => s
  | .num n => toString n
  | .bool b => if b then "true" else "false"
  | .null => "null"
  | .undefined => "undefined"

/-- The characters `{` and `}`. -/
def lbraceChar : Char := Char.ofNat 123

/-- The closing brace character. -/
def rbraceChar : Char := Char.ofNat 125

/-- Numeric value of a non-empty decimal digit string. -/
def digitsToNat (s : String) : Nat :=
  s.data.foldl (fun acc c => acc * 10 + (c.toNat - 48)) 0

/-- JavaScript `values[idx]` where `values` is an array and `idx` is the
string captured by the regex `\{\{(\d+)\}\}` (capture groups of a `replace`
callback are strings).  An array element is read only when the subscript is
the canonical decimal form of an index; any other string (e.g. `"00"`) is an
absent property and reads as `undefined`. -/
def jsArrayGet (values : List JsValue) (idxStr : String) : JsValue :=
  let n := digitsToNat idxStr
  if toString n = idxStr then values.getD n .undefined else .undefined

/-- Function `taggedTemplate(segments, placeholders, values)` of translate-util.ts
(duplicated as `I18nTranslateImplement.#taggedTemplate`): a `reduce` over the
segments; for the segment at `index`, `idx = placeholders[index]` (a captured
digit string, or `undefined` past the end of the placeholder list, which is
the case for the final segment), and the interpolated text is
`String(values[idx])` when that value is neither null nor undefined, else the
literal `{{idx}}` when `idx` is truthy (every non-empty string is truthy,
including `"0"`) and `''` when `idx` is falsy (`undefined`, past the end). -/
def taggedTemplate (segments placeholders : List String) (values : List JsValue) : String :=
  (List.range segments.length).foldl
    (fun prev index =>
      let current := segments.getD index ""
      let interpolated :=
        match placeholders.get? index with
        | some idx =>
          match jsArrayGet values idx with
          | .null => if idx = "" then "" else "\x7b\x7b" ++ idx ++ "\x7d\x7d"
          | .undefined => if idx = "" then "" else "\x7b\x7b" ++ idx ++ "\x7d\x7d"
          | v => jsToString v
        | none => ""
      prev ++ current ++ interpolated)
    ""

/-- Longest prefix of decimal digits, with the remainder. -/
def takeDigits : List Char → List Char × List Char
  | [] => ([], [])
  | c :: cs =>
    if c.isDigit then
      let (ds, rest) := takeDigits cs
      (c :: ds, rest)
    else ([], c :: cs)

/-- One attempt of the regex `\{\{(\d+)\}\}` at the current position:
two opening braces, one or more digits, two closing braces.  Returns the
captured digit string and the remaining input on success. -/
def matchPlaceholder (cs : List Char) : Option (String × List Char) :=
  match cs with
  | c1 :: c2 :: rest =>
    if c1 = lbraceChar ∧ c2 = lbraceChar then
      match takeDigits rest with
      | ([], _) => none
      | (ds, r) =>
        match r with
        | d1 :: d2 :: rest2 =>
          if d1 = rbraceChar ∧ d2 = rbraceChar then some (String.mk ds, rest2)
          else none
        | _ => none
    else none
  | _ => none

/-- The global left-to-right scan performed by `template.replace(/\{\{(\d+)\}\}/g, ...)`
in `compileTemplateFunction`: collect the literal slices between matches into
`segs` and the captured digit strings into `phs`.  `acc` is the current
literal slice, reversed; `fuel` bounds the recursion and always dominates the
remaining length, so the fuel-exhausted arm is never reached. -/
def scanTemplate : Nat → List Char → List Char → List String → List String →
    List String × List String
  | _, [], acc, segs, phs => ((String.mk acc.reverse :: segs).reverse, phs.reverse)
  | 0, cs, acc, segs, phs => ((String.mk (acc.reverse ++ cs) :: segs).reverse, phs.reverse)
  | fuel + 1, c :: cs, acc, segs, phs =>
    match matchPlaceholder (c :: cs) with
    | some (ds, rest) => scanTemplate fuel rest [] (String.mk acc.reverse :: segs) (ds :: phs)
    | none => scanTemplate fuel cs (c :: acc) segs phs

/-- The compiled form of a template: the ordered literal segments (one more
segment than there are placeholders) and the captured placeholder strings.
This is the closure state of the function returned by
`compileTemplateFunction`. -/
structure CompiledTemplate where
  segments : List String
  placeholders : List String
deriving DecidableEq

/-- Function `compileTemplateFunction(template)` of translate-util.ts (duplicated as
`I18nTranslateImplement.#compileTemplateFunction`): scan `{{digits}}`
placeholders left to right, record the literal slices between them and the
captured digit strings, and close over both for rendering. -/
def compileTemplateFunction (template : String) : CompiledTemplate :=
  let scanned := scanTemplate template.length template.data [] [] []
  ⟨scanned.1, scanned.2⟩

/-- Applying the function returned by `compileTemplateFunction` to `values`. -/
def renderTemplate (c : CompiledTemplate) (values : List JsValue) : String :=
  taggedTemplate c.segments c.placeholders values

/-- A `TranslationValue` of translate.type.ts: a raw template string, or the
compiled render function memoized in its place on first lookup. -/
inductive TranslationValue where
  | str (s : String)
  | fn (c : CompiledTemplate)
deriving DecidableEq

/-- A `TranslationData` bundle: a JS object mapping keys to translation
values; modeled as an association list with distinct keys. -/
abbrev TranslationData := List (String × TranslationValue)

/-- The `storeLanguage` map from language code to its loaded bundle. -/
abbrev TranslationStore := List (String × TranslationData)

/-- Rendering one translation entry with an argument list: a raw string entry
is compiled first (the source memoizes the compiled function back into the
bundle, which changes no rendered result since compilation is deterministic);
a compiled entry renders directly. -/
def renderTranslationValue : TranslationValue → List JsValue → String
  | .str s, values => renderTemplate (compileTemplateFunction s) values
  | .fn c, values => renderTemplate c values

/-- Function `tryGetTranslate(key, lang, values, store)` of translate-util.ts
(algorithmically identical to `I18nTranslateImplement.#tryGetTranslate`):
`null` when the language has no bundle; otherwise render the entry when it is
a string (compiling and memoizing it) or an already-compiled function, and
return the key itself when the entry is absent or of any other shape. -/
def tryGetTranslate (key lang : String) (values : List JsValue)
    (store : TranslationStore) : Option String :=
  match store.lookup lang with
  | none => none
  | some translations =>
    match translations.lookup key with
    | some (.str s) => some (renderTemplate (compileTemplateFunction s) values)
    | some (.fn c) => some (renderTemplate c values)
    | none => some key

/-- Function `resolveTranslation(key, lang, values, translations)` of translate-base.ts:
the key itself when the language has no bundle, else `tryGetTranslate(...) ?? key`. -/
def resolveTranslation (key lang : String) (values : List JsValue)
    (translations : TranslationStore) : String :=
  match translations.lookup lang with
  | none => key
  | some _ => (tryGetTranslate key lang values translations).getD key

/-- The closure returned by the `translateFn` computed of translate-base.ts:
resolve against the current language; when the result equals the key (the
miss signal), the fallback language is truthy (non-empty) and differs from the
current language, resolve against the fallback language instead.  The source
binds `result` once; resolution is pure, so the repeated call here is
equivalent. -/
def translateFn (currentLang fallbackLang : String) (translations : TranslationStore)
    (key : String) (values : List JsValue) : String :=
  if resolveTranslation key currentLang values translations = key ∧
      fallbackLang ≠ "" ∧ fallbackLang ≠ currentLang then
    resolveTranslation key fallbackLang values translations
  else
    resolveTranslation key currentLang values translations

/-- JavaScript falsiness of a `string | null` value: `null` and the empty
string are falsy. -/
def jsFalsyStr : Option String → Bool
  | none => true
  | some s => s == ""

/-- Method `I18nTranslateImplement.#getTranslationText(key, currentLang, values)`:
try the current language; when the result is falsy (`null` or `""`) and the
fallback language is truthy and differs from the current language, try the
fallback language; finally `?? key` replaces only `null`, never `""`. -/
def getTranslationText (store : TranslationStore) (fallbackLanguage key currentLang : String)
    (values : List JsValue) : String :=
  (if jsFalsyStr (tryGetTranslate key currentLang values store) ∧
      fallbackLanguage ≠ "" ∧ fallbackLanguage ≠ currentLang then
    tryGetTranslate key fallbackLanguage values store
  else
    tryGetTranslate key currentLang values store).getD key

/-- The loader-relevant state of one i18n instance of translate-base.ts:
which languages have a bundle in `storeLanguage` (only presence matters for
the loader), the `loadingStates` map, the `translationRequestCache` mapping a
language to the request object created for it (request objects are
distinguished by an allocation counter `nextReq`, mirroring JS object
identity: each `httpClient.get(...).pipe(...)` call constructs a fresh
object). -/
structure LoaderState where
  loaded : List String
  loading : List (String × Bool)
  requestCache : List (String × Nat)
  nextReq : Nat
deriving DecidableEq

/-- The state at instance construction: nothing loaded, nothing loading, an
empty request cache. -/
def initLoaderState : LoaderState := ⟨[], [], [], 0⟩

/-- Function `getOrCreateTranslationRequest(lang)` of translate-base.ts: when the
request cache has no entry for `lang`, build the request and cache it; always
return the cached request. -/
def getOrCreateTranslationRequest (s : LoaderState) (lang : String) : Nat × LoaderState :=
  match s.requestCache.lookup lang with
  | some req => (req, s)
  | none =>
    (s.nextReq,
      { s with requestCache := (lang, s.nextReq) :: s.requestCache, nextReq := s.nextReq + 1 })

/-- Function `setLoadingState(lang, loading)` of translate-base.ts: `Map.set` on a
copy of the loading map; association-list cons with first-match lookup models
the overwrite. -/
def setLoadingState (s : LoaderState) (lang : String) (loading : Bool) : LoaderState :=
  { s with loading := (lang, loading) :: s.loading }

/-- Function `loadLanguageResource(lang)` of translate-base.ts: return unchanged when
the language is already loaded or already loading; otherwise mark it loading
and get-or-create its request (the subscription that later delivers the
result is a separate asynchronous step, `completeLoad`). -/
def loadLanguageResource (s : LoaderState) (lang : String) : LoaderState :=
  if s.loaded.contains lang then s
  else if (s.loading.lookup lang).getD false then s
  else (getOrCreateTranslationRequest (setLoadingState s lang true) lang).2

/-- The asynchronous completion delivered to the subscription in
`loadLanguageResource`: `handleTranslationResponse` stores the bundle when
the data-changed check passes (abstracted as `dataChanged`), then the loading
flag is cleared. -/
def completeLoad (s : LoaderState) (lang : String) (dataChanged : Bool) : LoaderState :=
  let s1 := if dataChanged then { s with loaded := lang :: s.loaded } else s
  setLoadingState s1 lang false

/-- An event in the life of the loader: a load attempt for a language, or the
asynchronous completion of a request. -/
inductive LoaderOp where
  | load (lang : String)
  | complete (lang : String) (dataChanged : Bool)

/-- Apply one loader event. -/
def applyLoaderOp (s : LoaderState) : LoaderOp → LoaderState
  | .load lang => loadLanguageResource s lang
  | .complete lang dataChanged => completeLoad s lang dataChanged

/-- Run a sequence of loader events from the freshly-constructed state. -/
def runLoaderOps (ops : List LoaderOp) : LoaderState :=
  ops.foldl applyLoaderOp initLoaderState

/-- Number of request-cache entries for one language. -/
def reqCount (s : LoaderState) (lang : String) : Nat :=
  s.requestCache.countP (fun p => p.1 == lang)

/-- A `TranslationData` bundle together with a JS object identity: distinct
allocations carry distinct `oid`s, and `a === b` is `a.oid = b.oid`. -/
structure TData where
  oid : Nat
  data : TranslationData
deriving DecidableEq

/-- Function `isDifferentTranslateData(a, b)` of translate-util.ts (duplicated as
`I18nTranslateImplement.#isDifferentTranslateData`): different when either
side is absent; same object means unchanged; then different exactly when the
`Object.keys` counts differ (a bundle object has distinct keys, so the key
count is the entry count), never comparing contents. -/
def isDifferentTranslateData : Option TData → Option TData → Bool
  | none, _ => true
  | some _, none => true
  | some a, some b =>
    if a.oid = b.oid then false
    else if a.data.length ≠ b.data.length then true
    else false

/-- The store-and-callbacks state that `handleTranslationResponse` touches:
the `storeLanguage` map (with object identities) and a count of
`triggerLanguageChangedCallbacks` invocations. -/
structure I18nStoreState where
  storeLanguage : List (String × TData)
  callbacksFired : Nat
deriving DecidableEq

/-- Function `handleTranslationResponse({lang, data})` of translate-base.ts: when the
incoming data differs from the stored bundle per `isDifferentTranslateData`
(the `&& data` guard always passes, a response's `data` object being truthy),
replace the bundle in a copied map and fire the change callbacks; otherwise
leave the state untouched. -/
def handleTranslationResponse (s : I18nStoreState) (lang : String) (data : TData) :
    I18nStoreState :=
  if isDifferentTranslateData (s.storeLanguage.lookup lang) (some data) then
    { storeLanguage := (lang, data) :: s.storeLanguage,
      callbacksFired := s.callbacksFired + 1 }
  else s

/-- Outcome of the HTTP transport for one bundle fetch: a JSON bundle, or any
transport failure (network error, non-2xx, malformed body — all reach the
`catchError` operator identically). -/
inductive FetchOutcome where
  | success (data : TranslationData)
  | failure
deriving DecidableEq

/-- A `TranslationLoadResponse` of translate.type.ts. -/
structure TranslationLoadResponse where
  lang : String
  data : TranslationData
deriving DecidableEq

/-- The value the piped request of `getOrCreateTranslationRequest` delivers to
its subscribers, as a function of the transport outcome: `map` wraps a success
into `{lang, data}`, and `catchError` replaces any failure with
`of({lang, data: {}})` — an `Except.error` is never produced, so no error
reaches downstream subscribers (the same `catchError` shape appears in
`I18nTranslateImplement.#loadTranslateAssetResources`). -/
def translationRequestResult (lang : String) : FetchOutcome → Except String TranslationLoadResponse
  | .success data => .ok ⟨lang, data⟩
  | .failure => .ok ⟨lang, []⟩

/-- State of the `signalCache` of `createTranslationCache` (part of the
functional implementation): cache keys map to reactive handles; handle
identity is an allocation counter, mirroring that each `computed(...)` call
constructs a fresh derived-signal object. -/
structure SignalCacheState where
  cache : List (String × Nat)
  nextHandle : Nat
deriving DecidableEq

/-- Minimal JSON string escaping (quote and backslash). -/
def jsonEscape (s : String) : String :=
  s.data.foldl
    (fun acc c =>
      if c = '\"' then acc ++ "\\\""
      else if c = '\\' then acc ++ "\\\\"
      else acc.push c)
    ""

/-- JavaScript `JSON.stringify` of one array element (`undefined` serializes as `null`
inside an array). -/
def jsonStringifyValue : JsValue → String
  | .str s => "\"" ++ jsonEscape s ++ "\""
  | .num n => toString n
  | .bool b => if b then "true" else "false"
  | .null => "null"
  | .undefined => "null"

/-- JavaScript `JSON.stringify(values)` for the argument array. -/
def jsonStringify (values : List JsValue) : String :=
  "[" ++ String.intercalate "," (values.map jsonStringifyValue) ++ "]"

/-- Function `getCacheKey(key, values)` of `createTranslationCache`: the key alone for
an empty argument list, else the key, a colon, and the serialized
arguments. -/
def getCacheKey (key : String) (values : List JsValue) : String :=
  if values.length > 0 then key ++ ":" ++ jsonStringify values else key

/-- Function `getCachedSignal(key, values, translateFn)` of `createTranslationCache`:
when the cache has no entry for the derived cache key, build a new computed
handle and store it; always return the cached handle. -/
def getCachedSignal (s : SignalCacheState) (key : String) (values : List JsValue) :
    Nat × SignalCacheState :=
  let cacheKey := getCacheKey key values
  match s.cache.lookup cacheKey with
  | some handle => (handle, s)
  | none =>
    (s.nextHandle, ⟨(cacheKey, s.nextHandle) :: s.cache, s.nextHandle + 1⟩)

/-- Method `getSignal(key, ...values)` of the translate-base.ts instance:
`computed(() => translateFn()(key, values))` — every call constructs a fresh
derived computation, with no cache consulted; only the handle allocation
counter matters here, so the key and arguments are unused. -/
def getSignalBase (nextComputed : Nat) (_key : String) (_values : List JsValue) : Nat × Nat :=
  (nextComputed, nextComputed + 1)

/-- The module-level singleton state of translate-hook.ts: the instance (its
allocation id and the tag of the implementation class that constructed it),
the initialized flag, and a count of constructions (`new ImplementationClass`
evaluations).  Class identity is a `Nat` tag; the counterexamples below use
two unrelated classes, for which `instanceof` is tag equality. -/
structure HookRegistry where
  translateInstance : Option (Nat × Nat)
  isInitialized : Bool
  constructedCount : Nat
deriving DecidableEq

/-- The registry state before any initialization. -/
def initHookRegistry : HookRegistry := ⟨none, false, 0⟩

/-- Function `initializeI18nWithCustom(ImplementationClass, config)` of
translate-hook.ts: when already initialized, warn and return the existing
instance if it is an `instanceof` the requested class, else throw
`Cannot reinitialize with different implementation type`; otherwise construct
the instance, record it, and flip the flag.  The error carries no state
change: the module-level variables keep their previous values. -/
def initializeI18nWithCustom (s : HookRegistry) (implClassTag : Nat) :
    Except String (Nat × HookRegistry) :=
  if s.isInitialized then
    match s.translateInstance with
    | some (instId, instTag) =>
      if instTag = implClassTag then .ok (instId, s)
      else .error "[I18n] Cannot reinitialize with different implementation type"
    | none => .error "[I18n] Cannot reinitialize with different implementation type"
  else
    .ok (s.constructedCount,
      ⟨some (s.constructedCount, implClassTag), true, s.constructedCount + 1⟩)

/-- Function `useI18nTranslate()` of translate-hook.ts: throws unless the flag is set
and the instance is non-null. -/
def useI18nTranslate (s : HookRegistry) : Except String Nat :=
  match s.isInitialized, s.translateInstance with
  | true, some (instId, _) => .ok instId
  | _, _ => .error "[I18n] Must call initializeI18n() first"

/-- The module-level singleton state at the bottom of translate-base.ts:
`instanceI18nGlobal`, `isInitializedFlag`, and a construction counter for
`initInstanceI18n` calls. -/
structure GlobalRegistry where
  instanceI18nGlobal : Option Nat
  isInitializedFlag : Bool
  constructedCount : Nat
deriving DecidableEq

/-- The global registry before any initialization. -/
def initGlobalRegistry : GlobalRegistry := ⟨none, false, 0⟩

/-- Function `initializeI18n(configure)` of translate-base.ts: throw when the
configuration lacks an injector; when already initialized, warn and return
`instanceI18nGlobal!` (the non-null assertion is modeled by `getD 0`; in every
state reached through this function the flag implies the instance is
present); otherwise construct the instance and record it. -/
def initializeI18n (s : GlobalRegistry) (hasInjector : Bool) :
    Except String (Nat × GlobalRegistry) :=
  if hasInjector = false then
    .error "[I18n] Missing Angular injector in configuration"
  else if s.isInitializedFlag then
    .ok (s.instanceI18nGlobal.getD 0, s)
  else
    .ok (s.constructedCount, ⟨some s.constructedCount, true, s.constructedCount + 1⟩)

/-- Function `getInstanceI18n()` of translate-base.ts (exported as `useI18nTranslate`):
throws while no instance exists. -/
def getInstanceI18n (s : GlobalRegistry) : Except String Nat :=
  match s.instanceI18nGlobal with
  | none => .error "[I18n] Must call initializeI18n() first"
  | some inst => .ok inst

/-- A language absent from an association list has no entries there. -/
theorem countP_eq_zero_of_lookup_none (lang : String) :
    ∀ l : List (String × Nat), l.lookup lang = none →
      l.countP (fun p => p.1 == lang) = 0 := by
  intro l
  induction l with
  | nil => intro _; rfl
  | cons p t ih =>
    intro h
    obtain ⟨k, v⟩ := p
    cases hbeq : lang == k with
    | true => simp [List.lookup, hbeq] at h
    | false =>
      simp only [List.lookup, hbeq] at h
      have hkl : (k == lang) = false := by
        rw [beq_eq_false_iff_ne] at hbeq ⊢
        exact Ne.symm hbeq
      simp [List.countP_cons, ih h, hkl]

/-- A present entry renders through `tryGetTranslate`. -/
theorem tryGetTranslate_hit (key lang : String) (values : List JsValue)
    (store : TranslationStore) (d : TranslationData) (v : TranslationValue)
    (hs : store.lookup lang = some d) (hk : d.lookup key = some v) :
    tryGetTranslate key lang values store = some (renderTranslationValue v values) := by
  simp only [tryGetTranslate, hs, hk]
  cases v <;> simp [renderTranslationValue]

/-- A loaded bundle without the key yields the key through `tryGetTranslate`. -/
theorem tryGetTranslate_missKey (key lang : String) (values : List JsValue)
    (store : TranslationStore) (d : TranslationData)
    (hs : store.lookup lang = some d) (hk : d.lookup key = none) :
    tryGetTranslate key lang values store = some key := by
  simp only [tryGetTranslate, hs, hk]

/-- An absent bundle yields `null` through `tryGetTranslate`. -/
theorem tryGetTranslate_noBundle (key lang : String) (values : List JsValue)
    (store : TranslationStore) (hs : store.lookup lang = none) :
    tryGetTranslate key lang values store = none := by
  simp only [tryGetTranslate, hs]

/-- A present entry renders through `resolveTranslation`. -/
theorem resolveTranslation_hit (key lang : String) (values : List JsValue)
    (store : TranslationStore) (d : TranslationData) (v : TranslationValue)
    (hs : store.lookup lang = some d) (hk : d.lookup key = some v) :
    resolveTranslation key lang values store = renderTranslationValue v values := by
  simp only [resolveTranslation, hs, tryGetTranslate_hit key lang values store d v hs hk,
    Option.getD_some]

/-- When the key misses in `lang` (no bundle, or bundle without the key),
`resolveTranslation` returns the key. -/
theorem resolveTranslation_miss (key lang : String) (values : List JsValue)
    (store : TranslationStore)
    (h : ∀ d, store.lookup lang = some d → d.lookup key = none) :
    resolveTranslation key lang values store = key := by
  unfold resolveTranslation
  cases hs : store.lookup lang with
  | none => rfl
  | some d =>
    simp only [tryGetTranslate_missKey key lang values store d hs (h d hs), Option.getD_some]

/-- Claim C1: with the current language's bundle loaded as an empty object
and the fallback language's bundle containing the key, the
`I18nTranslateImplement` resolution path returns the key itself (its
`#tryGetTranslate` returns the key, a truthy string, for a loaded bundle that
lacks the key, so the `!translates` miss test never consults the fallback),
while the sibling `translateFn` path of translate-base.ts, which detects a
miss by `result === key`, returns the fallback bundle's rendering, as the
claim (and the README's automatic-fallback promise) requires. -/
theorem c1_fallback_eval :
    getTranslationText [("vi", []), ("en", [("greet", .str "Hi")])] "en" "greet" "vi" []
      = "greet" ∧
    translateFn "vi" "en" [("vi", []), ("en", [("greet", .str "Hi")])] "greet" []
      = "Hi" := by
  decide

/-- Claim C2: rendering the compiled template `{{1}}` with no arguments
yields the literal `{{1}}`, but rendering `{{0}}` with no arguments also
yields the literal `{{0}}`, not the empty string the claim states: the
regex capture pushed into `placeholders` is the string `"0"`, which is
truthy, so the zero-index empty-string branch of `taggedTemplate` is
unreachable for a real placeholder. -/
theorem c2_missing_arg_eval :
    renderTemplate (compileTemplateFunction "\x7b\x7b1\x7d\x7d") [] = "\x7b\x7b1\x7d\x7d" ∧
    renderTemplate (compileTemplateFunction "\x7b\x7b0\x7d\x7d") [] = "\x7b\x7b0\x7d\x7d" ∧
    renderTemplate (compileTemplateFunction "\x7b\x7b0\x7d\x7d") [] ≠ "" := by
  decide

/-- Claim C3, counterexample: the current language's bundle contains the key
`"a"` with an entry rendering to the string `"a"` — equal to the key — and
`translateFn` then consults the fallback bundle and returns its value `"X"`
instead of the current language's rendering, contradicting the claim that the
current rendering is returned whatever string it is. -/
theorem c3_hit_counterexample :
    translateFn "en" "vi" [("en", [("a", .str "a")]), ("vi", [("a", .str "X")])] "a" [] = "X" ∧
    renderTranslationValue (.str "a") [] = "a" ∧
    ("X" : String) ≠ "a" := by
  decide

/-- Claim C3, amended: when the current language's bundle contains the key
and its rendering with the given arguments differs from the key text, the
resolution returns that rendering and the fallback bundle and key-as-text
default are not consulted; a rendering equal to the key is indistinguishable
from a miss for the `result === key` test and may fall through. -/
theorem c3_hit_amended (store : TranslationStore) (currentLang fallbackLang key : String)
    (values : List JsValue) (d : TranslationData) (v : TranslationValue)
    (hs : store.lookup currentLang = some d) (hk : d.lookup key = some v)
    (hne : renderTranslationValue v values ≠ key) :
    translateFn currentLang fallbackLang store key values = renderTranslationValue v values := by
  have hres := resolveTranslation_hit key currentLang values store d v hs hk
  unfold translateFn
  rw [hres, if_neg (fun hc => hne hc.1)]

/-- Witness for `c3_hit_amended` at a concrete store. -/
theorem c3_hit_amended_witness :
    translateFn "en" "vi" [("en", [("a", .str "Hello")])] "a" []
      = renderTranslationValue (.str "Hello") [] :=
  c3_hit_amended [("en", [("a", .str "Hello")])] "en" "vi" "a" []
    [("a", .str "Hello")] (.str "Hello") (by decide) (by decide) (by decide)

/-- Claim C4: when the key is absent from the current language's bundle and
from the fallback language's bundle (including when either bundle is not
loaded at all), both resolution paths — `translateFn` of translate-base.ts
and `#getTranslationText` of `I18nTranslateImplement` — return the key
itself, for every argument list; both are total functions into strings. -/
theorem c4_key_last_resort (store : TranslationStore) (currentLang fallbackLang key : String)
    (values : List JsValue)
    (hcur : ∀ d, store.lookup currentLang = some d → d.lookup key = none)
    (hfb : ∀ d, store.lookup fallbackLang = some d → d.lookup key = none) :
    translateFn currentLang fallbackLang store key values = key ∧
    getTranslationText store fallbackLang key currentLang values = key := by
  constructor
  · unfold translateFn
    rw [resolveTranslation_miss key currentLang values store hcur,
      resolveTranslation_miss key fallbackLang values store hfb]
    split <;> rfl
  · unfold getTranslationText
    have hc : tryGetTranslate key currentLang values store = none ∨
        tryGetTranslate key currentLang values store = some key := by
      cases hs : store.lookup currentLang with
      | none => exact Or.inl (tryGetTranslate_noBundle key currentLang values store hs)
      | some d =>
        exact Or.inr (tryGetTranslate_missKey key currentLang values store d hs (hcur d hs))
    have hf : tryGetTranslate key fallbackLang values store = none ∨
        tryGetTranslate key fallbackLang values store = some key := by
      cases hs : store.lookup fallbackLang with
      | none => exact Or.inl (tryGetTranslate_noBundle key fallbackLang values store hs)
      | some d =>
        exact Or.inr (tryGetTranslate_missKey key fallbackLang values store d hs (hfb d hs))
    split
    · rcases hf with h | h <;> rw [h] <;> rfl
    · rcases hc with h | h <;> rw [h] <;> rfl

/-- Witness for `c4_key_last_resort` with no bundle loaded at all. -/
theorem c4_key_last_resort_witness :
    translateFn "en" "vi" [] "missing" [] = "missing" ∧
    getTranslationText [] "vi" "missing" "en" [] = "missing" :=
  c4_key_last_resort [] "en" "vi" "missing" []
    (fun _d h => nomatch h) (fun _d h => nomatch h)

/-- Claim C10: the two implementations detect a miss differently, and both
tests misfire on legitimate hits.  In `I18nTranslateImplement`, the miss test
is JS falsiness, so a current-language entry that renders to the empty string
sends the lookup to the fallback language (the final result is the fallback
lookup defaulted by the key).  In the translate-base.ts computed, the miss
test is string equality with the key, so a current-language entry whose
rendering equals the key text triggers the fallback resolution even though
the entry was present. -/
theorem c10_falsy_and_key_echo_act_as_miss :
    (∀ (store : TranslationStore) (currentLang fallbackLang key : String)
        (values : List JsValue) (d : TranslationData) (v : TranslationValue),
      store.lookup currentLang = some d → d.lookup key = some v →
      renderTranslationValue v values = "" →
      fallbackLang ≠ "" → fallbackLang ≠ currentLang →
      getTranslationText store fallbackLang key currentLang values =
        (tryGetTranslate key fallbackLang values store).getD key) ∧
    (∀ (store : TranslationStore) (currentLang fallbackLang key : String)
        (values : List JsValue) (d : TranslationData) (v : TranslationValue),
      store.lookup currentLang = some d → d.lookup key = some v →
      renderTranslationValue v values = key →
      fallbackLang ≠ "" → fallbackLang ≠ currentLang →
      translateFn currentLang fallbackLang store key values =
        resolveTranslation key fallbackLang values store) := by
  constructor
  · intro store currentLang fallbackLang key values d v hs hk hrender hfb hne
    unfold getTranslationText
    rw [tryGetTranslate_hit key currentLang values store d v hs hk, hrender,
      if_pos ⟨by rfl, hfb, hne⟩]
  · intro store currentLang fallbackLang key values d v hs hk hrender hfb hne
    unfold translateFn
    rw [resolveTranslation_hit key currentLang values store d v hs hk, hrender,
      if_pos ⟨rfl, hfb, hne⟩]

/-- Witness for `c10_falsy_and_key_echo_act_as_miss`: a current-language
entry rendering to `""` falls back in the implement path, and a
current-language entry rendering to its own key falls back in the
translate-base path. -/
theorem c10_witness :
    getTranslationText [("vi", [("hello", .str "")]), ("en", [("hello", .str "Hi")])]
        "en" "hello" "vi" [] =
      (tryGetTranslate "hello" "en" []
        [("vi", [("hello", .str "")]), ("en", [("hello", .str "Hi")])]).getD "hello" ∧
    translateFn "en" "vi" [("en", [("b", .str "b")]), ("vi", [("b", .str "B")])] "b" [] =
      resolveTranslation "b" "vi" [] [("en", [("b", .str "b")]), ("vi", [("b", .str "B")])] :=
  ⟨c10_falsy_and_key_echo_act_as_miss.1
      [("vi", [("hello", .str "")]), ("en", [("hello", .str "Hi")])] "vi" "en" "hello" []
      [("hello", .str "")] (.str "") (by decide) (by decide) (by decide) (by decide) (by decide),
    c10_falsy_and_key_echo_act_as_miss.2
      [("en", [("b", .str "b")]), ("vi", [("b", .str "B")])] "en" "vi" "b" []
      [("b", .str "b")] (.str "b") (by decide) (by decide) (by decide) (by decide) (by decide)⟩

/-- One loader event cannot bring a language's request-cache entry count
above one: requests are created only when the cache has no entry for the
language. -/
theorem reqCount_applyLoaderOp_le (s : LoaderState) (op : LoaderOp) (lang : String)
    (h : reqCount s lang ≤ 1) : reqCount (applyLoaderOp s op) lang ≤ 1 := by
  cases op with
  | complete lang2 dataChanged =>
    cases dataChanged <;> simp [applyLoaderOp, completeLoad, setLoadingState, reqCount] <;>
      exact h
  | load lang2 =>
    simp only [applyLoaderOp, loadLanguageResource]
    split
    · exact h
    · split
      · exact h
      · simp only [getOrCreateTranslationRequest, setLoadingState]
        cases hl : (List.lookup lang2 s.requestCache) with
        | some req => simpa [reqCount] using h
        | none =>
          by_cases heq : lang2 = lang
          · subst heq
            have hz := countP_eq_zero_of_lookup_none lang2 s.requestCache hl
            simp [reqCount, List.countP_cons, hz]
          · have hne : (lang2 == lang) = false := beq_eq_false_iff_ne.mpr heq
            simpa [reqCount, List.countP_cons, hne] using h

/-- Any sequence of loader events keeps every language's request-cache entry
count at most one. -/
theorem reqCount_foldl_le (ops : List LoaderOp) :
    ∀ s : LoaderState, (∀ l, reqCount s l ≤ 1) →
      ∀ l, reqCount (ops.foldl applyLoaderOp s) l ≤ 1 := by
  induction ops with
  | nil => intro s h l; exact h l
  | cons op rest ih =>
    intro s h l
    exact ih (applyLoaderOp s op) (fun l2 => reqCount_applyLoaderOp_le s op l2 (h l2)) l

/-- Claim C5: across any sequence of load attempts and completions starting
from construction, the request cache holds at most one request per language;
`getOrCreateTranslationRequest` returns the cached request unchanged whenever
one exists (every later load attempt reuses it); and `loadLanguageResource`
is a no-op when the language's bundle is already in the store or a load for
it is already in flight. -/
theorem c5_load_dedup :
    (∀ (ops : List LoaderOp) (lang : String), reqCount (runLoaderOps ops) lang ≤ 1) ∧
    (∀ (s : LoaderState) (lang : String) (req : Nat),
      s.requestCache.lookup lang = some req →
      getOrCreateTranslationRequest s lang = (req, s)) ∧
    (∀ (s : LoaderState) (lang : String),
      s.loaded.contains lang = true ∨ (s.loading.lookup lang).getD false = true →
      loadLanguageResource s lang = s) := by
  refine ⟨?_, ?_, ?_⟩
  · intro ops lang
    exact reqCount_foldl_le ops initLoaderState
      (fun l => by simp [reqCount, initLoaderState]) lang
  · intro s lang req h
    simp [getOrCreateTranslationRequest, h]
  · intro s lang h
    unfold loadLanguageResource
    rcases h with h | h
    · rw [if_pos h]
    · by_cases hc : s.loaded.contains lang = true
      · rw [if_pos hc]
      · rw [if_neg hc, if_pos h]

/-- Witness for `c5_load_dedup`: two consecutive load attempts for `"en"`
create at most one request; a cached request is returned as-is; a load
attempt for an already-loaded language changes nothing. -/
theorem c5_load_dedup_witness :
    reqCount (runLoaderOps [.load "en", .load "en"]) "en" ≤ 1 ∧
    getOrCreateTranslationRequest ⟨[], [], [("en", 0)], 1⟩ "en" =
      (0, ⟨[], [], [("en", 0)], 1⟩) ∧
    loadLanguageResource ⟨["en"], [], [], 0⟩ "en" = ⟨["en"], [], [], 0⟩ :=
  ⟨c5_load_dedup.1 [.load "en", .load "en"] "en",
    c5_load_dedup.2.1 ⟨[], [], [("en", 0)], 1⟩ "en" 0 (by decide),
    c5_load_dedup.2.2 ⟨["en"], [], [], 0⟩ "en" (Or.inl (by decide))⟩

/-- Claim C6: whatever the transport outcome, the request pipeline delivers a
successful-shaped `TranslationLoadResponse` (never an error), and on any
transport failure that value is `{lang, data: {}}`, the empty bundle for the
requested language. -/
theorem c6_fetch_failure_degradation :
    (∀ (lang : String) (outcome : FetchOutcome),
      ∃ resp : TranslationLoadResponse, translationRequestResult lang outcome = .ok resp) ∧
    (∀ lang : String, translationRequestResult lang .failure = .ok ⟨lang, []⟩) := by
  constructor
  · intro lang outcome
    cases outcome with
    | success data => exact ⟨⟨lang, data⟩, rfl⟩
    | failure => exact ⟨⟨lang, []⟩, rfl⟩
  · intro lang
    rfl

/-- Claim C7, counterexample: the `getSignal` of the translate-base.ts
instance builds `computed(() => translateFn()(key, values))` on every call,
so two calls with the same key and the same (empty) argument list yield two
distinct derived computations, not one shared handle. -/
theorem c7_new_computed_counterexample :
    (getSignalBase 0 "welcome" []).1 ≠
      (getSignalBase (getSignalBase 0 "welcome" []).2 "welcome" []).1 := by
  decide

/-- Claim C7, amended: in the functional implementation's translation cache,
a second `getCachedSignal` call whose key and serialized arguments produce
the same cache key returns exactly the first call's handle and leaves the
cache state unchanged. -/
theorem c7_cached_signal_memoized (s : SignalCacheState) (key : String)
    (values values2 : List JsValue)
    (h : getCacheKey key values2 = getCacheKey key values) :
    getCachedSignal (getCachedSignal s key values).2 key values2 =
      getCachedSignal s key values := by
  unfold getCachedSignal
  rw [h]
  cases hl : s.cache.lookup (getCacheKey key values) with
  | some handle => simp [hl]
  | none => simp [hl, List.lookup]

/-- Witness for `c7_cached_signal_memoized` on an empty cache. -/
theorem c7_cached_signal_memoized_witness :
    getCachedSignal (getCachedSignal ⟨[], 0⟩ "welcome" []).2 "welcome" [] =
      getCachedSignal ⟨[], 0⟩ "welcome" [] :=
  c7_cached_signal_memoized ⟨[], 0⟩ "welcome" [] [] rfl

/-- Claim C8: `isDifferentTranslateData` reports different when either side
is absent; with both present it reports unchanged for the same object,
different when the key counts differ, and unchanged in every other case —
content is never compared; and when it reports unchanged,
`handleTranslationResponse` neither replaces the store nor fires the change
callbacks. -/
theorem c8_bundle_equality :
    (∀ b, isDifferentTranslateData none b = true) ∧
    (∀ a, isDifferentTranslateData a none = true) ∧
    (∀ a b : TData, a.oid = b.oid → isDifferentTranslateData (some a) (some b) = false) ∧
    (∀ a b : TData, a.oid ≠ b.oid → a.data.length ≠ b.data.length →
      isDifferentTranslateData (some a) (some b) = true) ∧
    (∀ a b : TData, a.oid ≠ b.oid → a.data.length = b.data.length →
      isDifferentTranslateData (some a) (some b) = false) ∧
    (∀ (s : I18nStoreState) (lang : String) (data : TData),
      isDifferentTranslateData (s.storeLanguage.lookup lang) (some data) = false →
      handleTranslationResponse s lang data = s) := by
  refine ⟨fun b => rfl, ?_, ?_, ?_, ?_, ?_⟩
  · intro a; cases a <;> rfl
  · intro a b h; simp [isDifferentTranslateData, h]
  · intro a b h1 h2; simp [isDifferentTranslateData, h1, h2]
  · intro a b h1 h2; simp [isDifferentTranslateData, h1, h2]
  · intro s lang data h; simp [handleTranslationResponse, h]

/-- Witness for `c8_bundle_equality`: same-object bundles are unchanged,
different objects with different key counts are different, and an unchanged
response leaves the store state untouched. -/
theorem c8_bundle_equality_witness :
    isDifferentTranslateData (some ⟨1, []⟩) (some ⟨1, []⟩) = false ∧
    isDifferentTranslateData (some ⟨1, []⟩) (some ⟨2, [("k", .str "v")]⟩) = true ∧
    handleTranslationResponse ⟨[("en", ⟨1, []⟩)], 0⟩ "en" ⟨1, []⟩ =
      ⟨[("en", ⟨1, []⟩)], 0⟩ :=
  ⟨c8_bundle_equality.2.2.1 ⟨1, []⟩ ⟨1, []⟩ rfl,
    c8_bundle_equality.2.2.2.1 ⟨1, []⟩ ⟨2, [("k", .str "v")]⟩ (by decide) (by decide),
    c8_bundle_equality.2.2.2.2.2 ⟨[("en", ⟨1, []⟩)], 0⟩ "en" ⟨1, []⟩ (by decide)⟩

/-- Claim C9, counterexample: after a successful first initialization with
one implementation class, calling `initializeI18nWithCustom` again with a
different implementation class throws
`Cannot reinitialize with different implementation type` instead of
returning the existing instance, so the second call does not return the
existing instance regardless of the requested implementation. -/
theorem c9_reinit_counterexample :
    initializeI18nWithCustom initHookRegistry 0 = .ok (0, ⟨some (0, 0), true, 1⟩) ∧
    initializeI18nWithCustom ⟨some (0, 0), true, 1⟩ 1 =
      .error "[I18n] Cannot reinitialize with different implementation type" := by
  constructor <;> rfl

/-- Claim C9, amended: a second initialization never constructs a second
instance.  `initializeI18nWithCustom` returns the existing instance, with the
registry unchanged, exactly when that instance is an instance of the
requested class, and throws otherwise; the plain `initializeI18n` of
translate-base.ts returns the existing instance unchanged for any
configuration that passes the injector check; and the use/get accessors
throw before any successful initialization. -/
theorem c9_init_amended :
    (∀ (s : HookRegistry) (instId instTag tag : Nat),
      s.isInitialized = true → s.translateInstance = some (instId, instTag) →
      (instTag = tag → initializeI18nWithCustom s tag = .ok (instId, s)) ∧
      (instTag ≠ tag → initializeI18nWithCustom s tag =
        .error "[I18n] Cannot reinitialize with different implementation type")) ∧
    (∀ (s : GlobalRegistry) (instId : Nat),
      s.isInitializedFlag = true → s.instanceI18nGlobal = some instId →
      initializeI18n s true = .ok (instId, s)) ∧
    useI18nTranslate initHookRegistry = .error "[I18n] Must call initializeI18n() first" ∧
    getInstanceI18n initGlobalRegistry = .error "[I18n] Must call initializeI18n() first" := by
  refine ⟨?_, ?_, rfl, rfl⟩
  · intro s instId instTag tag hinit hinst
    constructor
    · intro heq
      simp [initializeI18nWithCustom, hinit, hinst, heq]
    · intro hne
      simp [initializeI18nWithCustom, hinit, hinst, hne]
  · intro s instId hflag hinst
    simp [initializeI18n, hflag, hinst]

/-- Witness for `c9_init_amended` on concrete registries. -/
theorem c9_init_amended_witness :
    initializeI18nWithCustom ⟨some (5, 3), true, 1⟩ 3 = .ok (5, ⟨some (5, 3), true, 1⟩) ∧
    initializeI18nWithCustom ⟨some (5, 3), true, 1⟩ 4 =
      .error "[I18n] Cannot reinitialize with different implementation type" ∧
    initializeI18n ⟨some 7, true, 1⟩ true = .ok (7, ⟨some 7, true, 1⟩) :=
  ⟨(c9_init_amended.1 ⟨some (5, 3), true, 1⟩ 5 3 3 rfl rfl).1 rfl,
    (c9_init_amended.1 ⟨some (5, 3), true, 1⟩ 5 3 4 rfl rfl).2 (by decide),
    c9_init_amended.2.1 ⟨some 7, true, 1⟩ 7 rfl rfl⟩
